import Mathlib

/-!
Verification of the content-generation module of the JARR feed reader
(jarr/lib/content_generator.py): strategy dispatch, the image, embedded,
truncated and reddit content generators, and the memoization of the
registry lookup.  Python machine-level features are embedded shallowly:
optional values model nullable fields, an Except monad models escaping
exceptions, an explicit oracle models network effects, and association
lists over strings model the produced content dictionaries.
-/

namespace Jarr

/-- Truthiness of an optional Python string: None and the empty string are
falsy, every other string is truthy. -/
def strTruthy : Option String → Bool
  | none => false
  | some s => s ≠ ""

/-- Embedding of the Python expression a or b for two optional strings:
returns a when a is truthy, otherwise b. -/
def pyOrStr (a b : Option String) : Option String :=
  if strTruthy a then a else b

/-- Embedding of html.escape with quote enabled, applied per character. -/
def escapeChar : Char → String
  | '&' => "&amp;"
  | '<' => "&lt;"
  | '>' => "&gt;"
  | '"' => "&quot;"
  | '\'' => "&#x27;"
  | c => String.mk [c]

/-- Embedding of html.escape over a whole string. -/
def htmlEscape (s : String) : String :=
  String.join (s.toList.map escapeChar)

/-- Article types of jarr.lib.enums.ArticleType.  Modelled from the spec:
the enum module is not under src; the spec lists image and embedded and an
ellipsis of further members, so the constructor other stands for any member
that has no registered strategy. -/
inductive ArticleType
  | image
  | embedded
  | other
deriving DecidableEq, Repr

/-- Embedding of the value attribute of an ArticleType enum member. -/
def ArticleType.value : ArticleType → String
  | .image => "image"
  | .embedded => "embedded"
  | .other => "other"

/-- Feed types of jarr.lib.enums.FeedType.  Modelled from the spec: the
enum module is not under src; the spec lists reddit and an ellipsis of
further members, so the constructor other stands for any member that has
no registered strategy. -/
inductive FeedType
  | reddit
  | other
deriving DecidableEq, Repr

/-- Feed fields read by the module: the nullable feed type and the
truncated-content flag. -/
structure Feed where
  feed_type : Option FeedType
  truncated_content : Bool
deriving DecidableEq, Repr

/-- Article fields read by the module.  objId models the Python object
identity used as the lru_cache key; link is always a string, the other
textual fields are nullable. -/
structure Article where
  objId : Nat
  link : String
  title : Option String
  content : Option String
  comments : Option String
  article_type : Option ArticleType
  feed : Feed
deriving DecidableEq, Repr

/-- Result of a successful page fetch by goose, as consumed by the module:
the resolved final url, the serialization of the top node chain (none when
etree serialization raises), and the metadata fields read by _get_goose. -/
structure Page where
  final_url : String
  htmlSer : Option String
  ogLocale : Option String
  metaLang : Option String
  metaKeywords : String
  tags : List String
  title : String
deriving DecidableEq, Repr

/-- Embedding of the extracted_infos dictionary filled by _get_goose after
a successful fetch. -/
structure ExtractedInfos where
  lang : Option String
  link : String
  tags : List String
  title : String
deriving DecidableEq, Repr

/-- Embedding of _get_goose populating extracted_infos from a fetched
page: lang is the opengraph locale when truthy, otherwise meta_lang; tags
is the union of the page tags and the comma-split meta keywords. -/
def extractInfos (p : Page) : ExtractedInfos :=
  { lang := pyOrStr p.ogLocale p.metaLang
    link := p.final_url
    tags := p.tags ++ (p.metaKeywords.splitOn ", ").filter (fun k => k ∉ p.tags)
    title := p.title }

/-- Modelled from the spec: to_vector of jarr.controllers.article is not
under src; the spec describes it as building a searchable feature summary
from the extracted infos and the page, so it is modelled as a constructor
pairing its two inputs. -/
structure Vector where
  infos : ExtractedInfos
  page : Page
deriving DecidableEq, Repr

/-- Modelled from the spec: the vector builder applied by get_vector. -/
def to_vector (i : ExtractedInfos) (p : Page) : Vector := ⟨i, p⟩

/-- Python exceptions that the embedded code can raise. -/
inductive PyExc
  | typeError
  | attributeError
deriving DecidableEq, Repr

/-- Content dictionaries produced by generate: association lists from
string keys to string values, in insertion order. -/
abbrev Content : Type := List (String × String)

/-- Strategy classes of the module, one constructor per class. -/
inductive Strategy
  | base
  | image
  | embedded
  | truncated
  | reddit
deriving DecidableEq, Repr

/-- Embedding of the article-type half of CONTENT_GENERATORS, built by
feed_mapping from the subclass scan: ImageContentGenerator declares
ArticleType.image and EmbeddedContentGenerator declares
ArticleType.embedded; no other scanned class declares an article type. -/
def articleTypeRegistry : ArticleType → Option Strategy
  | .image => some .image
  | .embedded => some .embedded
  | .other => none

/-- Embedding of the feed-type half of CONTENT_GENERATORS:
RedditContentGenerator declares FeedType.reddit; no other scanned class
declares a feed type. -/
def feedTypeRegistry : FeedType → Option Strategy
  | .reddit => some .reddit
  | .other => none

/-- Embedding of get_content_generator without its lru_cache decoration:
article type first when set and registered, then feed type when set and
registered, then the truncated-content flag, then the base class. -/
def get_content_generator (a : Article) : Strategy :=
  match a.article_type.bind articleTypeRegistry with
  | some s => s
  | none =>
    match a.feed.feed_type.bind feedTypeRegistry with
    | some s => s
    | none => if a.feed.truncated_content then .truncated else .base

/-- Word characters of the regex class combining letters, digits, and the
underscore.  The Python class is Unicode aware; this embedding covers the
ASCII range, which is the range YouTube links use. -/
def wordChar (c : Char) : Bool :=
  c.isAlphanum || c = '_'

/-- Length of the maximal leading run of word characters or hyphens,
the greedy extent of the character class of word characters and hyphen. -/
def wordRunLen : List Char → Nat
  | [] => 0
  | c :: cs => if wordChar c || c = '-' then wordRunLen cs + 1 else 0

/-- Length of the maximal leading run of non-whitespace characters, the
greedy extent of the non-space class. -/
def nonSpaceRunLen : List Char → Nat
  | [] => 0
  | c :: cs => if c.isWhitespace then 0 else nonSpaceRunLen cs + 1

/-- Consumes a literal pattern from the front of the input, returning the
remainder on success. -/
def dropLit : List Char → List Char → Option (List Char)
  | [], s => some s
  | _, [] => none
  | l :: ls, c :: cs => if c = l then dropLit ls cs else none

/-- Descending list n, n-1, ..., 1: greedy backtracking order for a plus
quantifier whose maximal extent is n. -/
def downFrom1 (n : Nat) : List Nat :=
  (List.range n).map (fun i => n - i)

/-- Candidates for the first group of YOUTUBE_RE, an optional scheme
followed by two slashes, in backtracking preference order. -/
def g1cands (s : List Char) : List (Option String × List Char) :=
  (match dropLit "https://".toList s with
   | some r => [(some "https://", r)]
   | none => []) ++
  (match dropLit "http://".toList s with
   | some r => [(some "http://", r)]
   | none => []) ++
  (match dropLit "//".toList s with
   | some r => [(some "//", r)]
   | none => []) ++
  [(none, s)]

/-- Candidates for the second group of YOUTUBE_RE, the optional www or m
subdomain, in backtracking preference order. -/
def g2cands (s : List Char) : List (Option String × List Char) :=
  (match dropLit "www.".toList s with
   | some r => [(some "www.", r)]
   | none => []) ++
  (match dropLit "m.".toList s with
   | some r => [(some "m.", r)]
   | none => []) ++
  [(none, s)]

/-- Candidates for the third group of YOUTUBE_RE, the host.  The first
alternative is the literal youtube.com; in the second the dot of youtu.be
is unescaped in the source pattern, so it matches any character except a
newline. -/
def g3cands (s : List Char) : List (String × List Char) :=
  (match dropLit "youtube.com".toList s with
   | some r => [("youtube.com", r)]
   | none => []) ++
  (match dropLit "youtu".toList s with
   | some (c :: r1) =>
     if c ≠ '\n' then
       match dropLit "be".toList r1 with
       | some r2 => [(String.mk ('y' :: 'o' :: 'u' :: 't' :: 'u' :: c :: 'b' :: 'e' :: []), r2)]
       | none => []
     else []
   | _ => [])

/-- Candidates for the fourth group of YOUTUBE_RE, a mandatory slash
followed by an optional path prefix: a greedy word run followed by the
literal query marker, or the embed or v path segments, or nothing, in
backtracking preference order. -/
def g4cands (s : List Char) : List (String × List Char) :=
  match s with
  | '/' :: r =>
    ((downFrom1 (wordRunLen r)).filterMap (fun k =>
      match dropLit "?v=".toList (r.drop k) with
      | some rest => some ("/" ++ String.mk (r.take k) ++ "?v=", rest)
      | none => none)) ++
    (match dropLit "embed/".toList r with
     | some rest => [("/embed/", rest)]
     | none => []) ++
    (match dropLit "v/".toList r with
     | some rest => [("/v/", rest)]
     | none => []) ++
    [("/", r)]
  | _ => []

/-- Candidates for the fifth group of YOUTUBE_RE, the video id: a greedy
nonempty run of word characters or hyphens, in backtracking preference
order. -/
def g5cands (s : List Char) : List (String × List Char) :=
  (downFrom1 (wordRunLen s)).map (fun k => (String.mk (s.take k), s.drop k))

/-- Matches the tail of YOUTUBE_RE after the video id: an optional greedy
run of non-whitespace characters, then the end anchor, which accepts the
end of the string or a single final newline.  Returns the sixth capture on
success. -/
def finishTail (s : List Char) : Option (Option String) :=
  let k := nonSpaceRunLen s
  let rest := s.drop k
  if rest = [] ∨ rest = ['\n'] then
    some (if k = 0 then none else some (String.mk (s.take k)))
  else
    none

/-- Capture groups of a YOUTUBE_RE match: groups one, two and six are
under optional quantifiers, groups three, four and five always capture. -/
structure YtCaps where
  g1 : Option String
  g2 : Option String
  g3 : String
  g4 : String
  g5 : String
  g6 : Option String
deriving DecidableEq, Repr

/-- Embedding of YOUTUBE_RE.match: a backtracking search over the group
candidates in engine preference order, returning the captures of the
first complete match, and none when no decomposition matches. -/
def ytMatch (link : String) : Option YtCaps :=
  (g1cands link.toList).findSome? (fun p1 =>
    (g2cands p1.2).findSome? (fun p2 =>
      (g3cands p2.2).findSome? (fun p3 =>
        (g4cands p3.2).findSome? (fun p4 =>
          (g5cands p4.2).findSome? (fun p5 =>
            (finishTail p5.2).map (fun g6 =>
              ⟨p1.1, p2.1, p3.1, p4.1, p5.1, g6⟩))))))

/-- Embedding of is_embedded_link. -/
def is_embedded_link (link : String) : Option YtCaps :=
  ytMatch link

/-- Embedding of ContentGenerator.generate, a static method returning a
failure flag and an empty dictionary. -/
def ContentGenerator.generate : Bool × Content :=
  (false, [])

/-- Embedding of ContentGenerator.get_vector on a fresh instance.  The
fetch oracle is the outcome of the lazy _get_goose call on the article
link: none when the fetch raised or produced a falsy page, in which case
_page stays None and the method returns None; on a fetched page the method
returns to_vector of the extracted infos, which _get_goose always fills
with four keys, so the extracted_infos truthiness test passes. -/
def ContentGenerator.get_vector (fetch : Option Page) : Option Vector :=
  match fetch with
  | none => none
  | some p => some (to_vector (extractInfos p) p)

/-- Embedding of ImageContentGenerator.get_vector. -/
def ImageContentGenerator.get_vector : Option Vector :=
  none

/-- Embedding of ImageContentGenerator.generate.  The method first binds
text to the title or the content; building the dictionary then reads the
value attribute of the article type, raising AttributeError when the
article type is None, and slices text to the alt maximum length, raising
TypeError when text is None; otherwise it succeeds with the image type
value, the escaped truncated alt text and the article link. -/
def ImageContentGenerator.generate (a : Article) : Except PyExc (Bool × Content) :=
  let text := pyOrStr a.title a.content
  match a.article_type with
  | none => .error .attributeError
  | some t =>
    match text with
    | none => .error .typeError
    | some s =>
      .ok (true, [("type", t.value),
                  ("alt", htmlEscape (s.take 100)),
                  ("src", a.link)])

/-- Embedding of EmbeddedContentGenerator.get_vector. -/
def EmbeddedContentGenerator.get_vector : Option Vector :=
  none

/-- Embedding of EmbeddedContentGenerator.generate.  On a pattern match
the dictionary first reads the value attribute of the article type,
raising AttributeError when the article type is None, then succeeds with
the youtube player and the fifth capture; the pattern has six groups so
the guarded IndexError never occurs.  On no match it succeeds with an
empty dictionary. -/
def EmbeddedContentGenerator.generate (a : Article) : Except PyExc (Bool × Content) :=
  match ytMatch a.link with
  | some caps =>
    match a.article_type with
    | none => .error .attributeError
    | some t =>
      .ok (true, [("type", t.value),
                  ("player", "youtube"),
                  ("videoId", caps.g5)])
  | none => .ok (true, [])

/-- Embedding of TruncatedContentGenerator.generate on a fresh instance.
The fetch oracle is the outcome of the lazy _get_goose call.  When the
page is absent the serialization raises on the missing top node, the
exception is caught, and the result is failure with only the type key;
similarly when serialization raises.  On success the dictionary gains the
serialized content and the final url, and the comments key exactly when
the article comments are truthy. -/
def TruncatedContentGenerator.generate (a : Article) (fetch : Option Page) :
    Bool × Content :=
  match fetch with
  | none => (false, [("type", "fetched")])
  | some p =>
    match p.htmlSer with
    | none => (false, [("type", "fetched")])
    | some h =>
      let base : Content :=
        [("type", "fetched"), ("content", h), ("link", p.final_url)]
      match a.comments with
      | some c => if c ≠ "" then (true, base ++ [("comments", c)]) else (true, base)
      | none => (true, base)

set_option linter.unusedVariables false in
/-- Embedding of the is_pure_reddit_post property.  The head parameter is
the behavior of the network environment: for a comments uri it gives the
url a HEAD request following redirects would resolve to, or none on
request failure.  The parameter is never consulted: the module never
imports the requests name, so the call inside the try block raises
NameError, which the bare except clause turns into False.  The property
is therefore True exactly when the article type is None and the link
equals the comments uri. -/
def is_pure_reddit_post (head : String → Option String) (a : Article) : Bool :=
  if a.article_type.isSome then false
  else if a.comments == some a.link then true
  else false

/-- Embedding of RedditContentGenerator.generate: a pure reddit post
yields failure with an empty dictionary, otherwise the inherited
truncated-content generate runs. -/
def RedditContentGenerator.generate (head : String → Option String)
    (a : Article) (fetch : Option Page) : Bool × Content :=
  if is_pure_reddit_post head a then (false, [])
  else TruncatedContentGenerator.generate a fetch

/-- Embedding of RedditContentGenerator.get_vector: a pure reddit post
yields None through the implicit fall-through, otherwise the get_vector
inherited from the base class runs. -/
def RedditContentGenerator.get_vector (head : String → Option String)
    (a : Article) (fetch : Option Page) : Option Vector :=
  if is_pure_reddit_post head a then none
  else ContentGenerator.get_vector fetch

/-- Dispatch of generate over the strategy classes, in the exception
monad: only the image and embedded variants contain an operation that can
raise, every other variant is total. -/
def generateFor (head : String → Option String) (s : Strategy) (a : Article)
    (fetch : Option Page) : Except PyExc (Bool × Content) :=
  match s with
  | .base => .ok ContentGenerator.generate
  | .image => ImageContentGenerator.generate a
  | .embedded => EmbeddedContentGenerator.generate a
  | .truncated => .ok (TruncatedContentGenerator.generate a fetch)
  | .reddit => .ok (RedditContentGenerator.generate head a fetch)

/-- Dispatch of get_vector over the strategy classes, in the exception
monad: no variant contains an operation that can raise. -/
def getVectorFor (head : String → Option String) (s : Strategy) (a : Article)
    (fetch : Option Page) : Except PyExc (Option Vector) :=
  match s with
  | .base => .ok (ContentGenerator.get_vector fetch)
  | .image => .ok ImageContentGenerator.get_vector
  | .embedded => .ok EmbeddedContentGenerator.get_vector
  | .truncated => .ok (ContentGenerator.get_vector fetch)
  | .reddit => .ok (RedditContentGenerator.get_vector head a fetch)

/-- State of the functools.lru_cache around get_content_generator:
entries maps the identity key of an article argument to the identity of
the stored strategy instance, most recently used first; nextId numbers
the strategy instances in construction order, so two instances are the
identical object exactly when their numbers agree. -/
structure LruState where
  entries : List (Nat × Nat)
  nextId : Nat
deriving DecidableEq, Repr

/-- Empty cache at process start. -/
def LruState.empty : LruState := ⟨[], 0⟩

/-- Maximum size of the cache: functools.lru_cache with no arguments
keeps its default of 128 entries. -/
def lruMaxsize : Nat := 128

/-- One lru_cache lookup on an identity key: a hit returns the stored
instance and moves its entry to the front; a miss constructs a fresh
instance, inserts it at the front, and discards the least recently used
entry when the cache exceeds its maximum size. -/
def cachedLookup (st : LruState) (k : Nat) : Nat × LruState :=
  match st.entries.lookup k with
  | some v => (v, ⟨(k, v) :: st.entries.filter (fun e => e.1 ≠ k), st.nextId⟩)
  | none =>
    (st.nextId, ⟨((k, st.nextId) :: st.entries).take lruMaxsize, st.nextId + 1⟩)

/-- Embedding of the decorated get_content_generator: the memoized call
returns the dispatched strategy together with the identity of the
instance the cache hands back, and the updated cache. -/
def get_content_generator_memo (st : LruState) (a : Article) :
    (Strategy × Nat) × LruState :=
  let r := cachedLookup st a.objId
  ((get_content_generator a, r.1), r.2)

/-- Runs the memoized lookup over a list of articles, keeping the cache. -/
def runMemo (arts : List Article) (st : LruState) : LruState :=
  arts.foldl (fun s a => (get_content_generator_memo s a).2) st

/-- Instrumented is_pure_reddit_post: identical to the property, and
counts one evaluation of the classification step, since the property
decorator recomputes its body on every attribute access. -/
def is_pure_reddit_post_counted (head : String → Option String) (a : Article)
    (evals : Nat) : Bool × Nat :=
  (is_pure_reddit_post head a, evals + 1)

/-- Instrumented RedditContentGenerator.generate: the method reads the
is_pure_reddit_post property exactly once per call, then branches. -/
def RedditContentGenerator.generateCounted (head : String → Option String)
    (a : Article) (fetch : Option Page) (evals : Nat) : (Bool × Content) × Nat :=
  let r := is_pure_reddit_post_counted head a evals
  (if r.1 then (false, []) else TruncatedContentGenerator.generate a fetch, r.2)

/-- Instrumented RedditContentGenerator.get_vector: the method reads the
is_pure_reddit_post property exactly once per call, then branches. -/
def RedditContentGenerator.getVectorCounted (head : String → Option String)
    (a : Article) (fetch : Option Page) (evals : Nat) : Option Vector × Nat :=
  let r := is_pure_reddit_post_counted head a evals
  (if r.1 then none else ContentGenerator.get_vector fetch, r.2)

/-- Dispatch reaches the image strategy only through the article type. -/
lemma article_type_of_gcg_image (a : Article)
    (h : get_content_generator a = Strategy.image) :
    a.article_type = some ArticleType.image := by
  obtain ⟨i, l, ti, co, cm, aty, fty, tc⟩ := a
  cases aty with
  | none =>
    exfalso
    cases fty with
    | none =>
      cases tc <;>
        simp [get_content_generator, articleTypeRegistry, feedTypeRegistry] at h
    | some f =>
      cases f <;> cases tc <;>
        simp [get_content_generator, articleTypeRegistry, feedTypeRegistry] at h
  | some t =>
    cases t with
    | image => rfl
    | embedded => simp [get_content_generator, articleTypeRegistry] at h
    | other =>
      exfalso
      cases fty with
      | none =>
        cases tc <;>
          simp [get_content_generator, articleTypeRegistry, feedTypeRegistry] at h
      | some f =>
        cases f <;> cases tc <;>
          simp [get_content_generator, articleTypeRegistry, feedTypeRegistry] at h

/-- Dispatch reaches the embedded strategy only through the article type. -/
lemma article_type_of_gcg_embedded (a : Article)
    (h : get_content_generator a = Strategy.embedded) :
    a.article_type = some ArticleType.embedded := by
  obtain ⟨i, l, ti, co, cm, aty, fty, tc⟩ := a
  cases aty with
  | none =>
    exfalso
    cases fty with
    | none =>
      cases tc <;>
        simp [get_content_generator, articleTypeRegistry, feedTypeRegistry] at h
    | some f =>
      cases f <;> cases tc <;>
        simp [get_content_generator, articleTypeRegistry, feedTypeRegistry] at h
  | some t =>
    cases t with
    | image => simp [get_content_generator, articleTypeRegistry] at h
    | embedded => rfl
    | other =>
      exfalso
      cases fty with
      | none =>
        cases tc <;>
          simp [get_content_generator, articleTypeRegistry, feedTypeRegistry] at h
      | some f =>
        cases f <;> cases tc <;>
          simp [get_content_generator, articleTypeRegistry, feedTypeRegistry] at h

/-- C1: get_content_generator selects exactly one strategy in precedence
order: a set and registered article type wins, then a set and registered
feed type, then the truncated-content flag selects the truncated strategy,
and otherwise the base strategy applies; in particular an article with
article type image on a reddit feed resolves to the image strategy. -/
theorem c1_dispatch_precedence :
    (∀ (a : Article) (t : ArticleType) (s : Strategy),
       a.article_type = some t → articleTypeRegistry t = some s →
       get_content_generator a = s) ∧
    (∀ (a : Article) (t : FeedType) (s : Strategy),
       a.article_type.bind articleTypeRegistry = none →
       a.feed.feed_type = some t → feedTypeRegistry t = some s →
       get_content_generator a = s) ∧
    (∀ a : Article,
       a.article_type.bind articleTypeRegistry = none →
       a.feed.feed_type.bind feedTypeRegistry = none →
       a.feed.truncated_content = true →
       get_content_generator a = Strategy.truncated) ∧
    (∀ a : Article,
       a.article_type.bind articleTypeRegistry = none →
       a.feed.feed_type.bind feedTypeRegistry = none →
       a.feed.truncated_content = false →
       get_content_generator a = Strategy.base) ∧
    (∀ a : Article,
       a.article_type = some ArticleType.image →
       a.feed.feed_type = some FeedType.reddit →
       get_content_generator a = Strategy.image) := by
  refine ⟨?_, ?_, ?_, ?_, ?_⟩
  · intro a t s ht hs
    simp [get_content_generator, ht, hs]
  · intro a t s ha ht hs
    simp [get_content_generator, ha, ht, hs]
  · intro a ha hf htc
    simp [get_content_generator, ha, hf, htc]
  · intro a ha hf htc
    simp [get_content_generator, ha, hf, htc]
  · intro a ht hf
    simp [get_content_generator, ht, articleTypeRegistry]

/-- Article carrying both the image article type and a reddit feed type,
used to instantiate the precedence theorem. -/
def c1Article : Article :=
  ⟨100, "https://example.com/i.png", some "t", none, none,
   some ArticleType.image, ⟨some FeedType.reddit, true⟩⟩

/-- Witness for C1: the article-type-wins clause evaluated on a concrete
article with article type image and feed type reddit. -/
theorem c1_witness : get_content_generator c1Article = Strategy.image :=
  c1_dispatch_precedence.2.2.2.2 c1Article rfl rfl

/-- C10: the HEAD branch of is_pure_reddit_post is dead because the
requests name is unbound; the result never depends on what a HEAD request
would resolve to, and the property is true exactly when the article type
is None and the link equals the comments uri. -/
theorem c10_pure_post_ignores_head :
    ∀ (head head2 : String → Option String) (a : Article),
      is_pure_reddit_post head a = is_pure_reddit_post head2 a ∧
      is_pure_reddit_post head a =
        (a.article_type.isNone && (a.comments == some a.link)) := by
  intro head head2 a
  refine ⟨rfl, ?_⟩
  cases ha : a.article_type with
  | some t => simp [is_pure_reddit_post, ha]
  | none =>
    cases hc : a.comments == some a.link <;>
      simp [is_pure_reddit_post, ha, hc]

/-- Reddit-feed article with no article type whose link differs from its
comments uri, in an environment whose HEAD request on the comments uri
resolves exactly to the article link. -/
def c3Article : Article :=
  ⟨300, "https://example.com/a", none, none,
   some "https://www.reddit.com/r/x/comments/1/", none,
   ⟨some FeedType.reddit, true⟩⟩

/-- Environment oracle for C3: every HEAD request resolves to the article
link of c3Article. -/
def c3Head : String → Option String :=
  fun _ => some "https://example.com/a"

/-- C3: on an article whose comments uri HEAD-resolves to the article
link the classification should be true per the claim, but the code
returns false, because the unbound requests name raises NameError inside
the try block before any request is issued. -/
theorem c3_head_branch_dead :
    c3Head (c3Article.comments.getD "") = some c3Article.link ∧
    c3Article.article_type = none ∧
    c3Article.comments ≠ some c3Article.link ∧
    is_pure_reddit_post c3Head c3Article = false := by
  refine ⟨rfl, rfl, ?_, rfl⟩
  decide

/-- C4: the truncated strategy succeeds exactly on a fetched page whose
serialization succeeds, and then emits the fetched type, the serialized
content, the resolved final url, and the comments key exactly when the
article comments are truthy; on a missing page or a failed serialization
it returns failure with only the type key. -/
theorem c4_truncated_generate (a : Article) (fetch : Option Page) :
    (∀ (p : Page) (h : String), fetch = some p → p.htmlSer = some h →
       (TruncatedContentGenerator.generate a fetch).1 = true ∧
       (TruncatedContentGenerator.generate a fetch).2.lookup "type" = some "fetched" ∧
       (TruncatedContentGenerator.generate a fetch).2.lookup "content" = some h ∧
       (TruncatedContentGenerator.generate a fetch).2.lookup "link" = some p.final_url ∧
       ((TruncatedContentGenerator.generate a fetch).2.lookup "comments").isSome =
         strTruthy a.comments) ∧
    ((fetch = none ∨ ∃ p, fetch = some p ∧ p.htmlSer = none) →
       TruncatedContentGenerator.generate a fetch = (false, [("type", "fetched")])) := by
  constructor
  · intro p h hp hser
    subst hp
    cases hc : a.comments with
    | none =>
      simp [TruncatedContentGenerator.generate, hser, hc, List.lookup, strTruthy]
    | some c =>
      by_cases hce : c = "" <;>
        simp [TruncatedContentGenerator.generate, hser, hc, hce, List.lookup, strTruthy]
  · rintro (rfl | ⟨p, rfl, hser⟩)
    · rfl
    · simp [TruncatedContentGenerator.generate, hser]

/-- Fetched page used to instantiate the truncated-strategy theorem. -/
def c4Page : Page :=
  ⟨"https://example.com/final", some "<p>hello</p>", none, none, "", [], "T"⟩

/-- Truncated-feed article with truthy comments used to instantiate the
truncated-strategy theorem. -/
def c4Article : Article :=
  ⟨400, "https://example.com/t", none, none,
   some "https://example.com/t#comments", none, ⟨none, true⟩⟩

/-- Witness for C4: the success clause evaluated on a concrete page and
article. -/
theorem c4_witness :
    (TruncatedContentGenerator.generate c4Article (some c4Page)).1 = true ∧
    (TruncatedContentGenerator.generate c4Article (some c4Page)).2.lookup "comments" =
      some "https://example.com/t#comments" :=
  ⟨((c4_truncated_generate c4Article (some c4Page)).1 c4Page "<p>hello</p>" rfl rfl).1,
   rfl⟩

/-- C5 amended: for an image article whose title or body yields a text,
generate succeeds with the image type, the escaped alt text truncated to
one hundred characters, and the link as source, without consulting any
fetch, and get_vector returns nothing; when both title and body are
absent the slice of None raises TypeError instead. -/
theorem c5_image_generate (a : Article) (h : a.article_type = some ArticleType.image)
    (t : String) (ht : pyOrStr a.title a.content = some t) :
    ImageContentGenerator.generate a =
      Except.ok (true, [("type", "image"),
                        ("alt", htmlEscape (t.take 100)),
                        ("src", a.link)]) ∧
    ImageContentGenerator.get_vector = none := by
  refine ⟨?_, rfl⟩
  simp [ImageContentGenerator.generate, h, ht, ArticleType.value]

/-- Image article with a title, used to instantiate the image theorem. -/
def c5WitnessArticle : Article :=
  ⟨501, "https://example.com/pic.png", some "A <title>", none, none,
   some ArticleType.image, ⟨none, false⟩⟩

set_option maxRecDepth 10000 in
/-- Witness for C5: the image success clause evaluated on a concrete
article with a short title needing escaping. -/
theorem c5_witness :
    ImageContentGenerator.generate c5WitnessArticle =
      Except.ok (true, [("type", "image"),
                        ("alt", "A &lt;title&gt;"),
                        ("src", "https://example.com/pic.png")]) := by
  have h := (c5_image_generate c5WitnessArticle rfl "A <title>" rfl).1
  exact h

/-- Image article with neither title nor body. -/
def c5Article : Article :=
  ⟨500, "https://example.com/i.png", none, none, none,
   some ArticleType.image, ⟨none, false⟩⟩

/-- Counterexample for C5: on an image article with neither title nor
body, generate does not succeed; the slice of None raises TypeError. -/
theorem c5_counterexample :
    ImageContentGenerator.generate c5Article = Except.error PyExc.typeError := rfl

/-- C6: for an embedded article, a link matching the YouTube pattern
yields success with the embedded type, the youtube player, and exactly
the fifth capture group as video id; a non-matching link still yields
success with an empty dictionary. -/
theorem c6_embedded_generate (a : Article)
    (h : a.article_type = some ArticleType.embedded) :
    (∀ caps : YtCaps, ytMatch a.link = some caps →
       EmbeddedContentGenerator.generate a =
         Except.ok (true, [("type", "embedded"),
                           ("player", "youtube"),
                           ("videoId", caps.g5)])) ∧
    (ytMatch a.link = none →
       EmbeddedContentGenerator.generate a = Except.ok (true, [])) := by
  constructor
  · intro caps hc
    simp [EmbeddedContentGenerator.generate, hc, h, ArticleType.value]
  · intro hc
    simp [EmbeddedContentGenerator.generate, hc]

/-- Embedded article with a canonical YouTube watch link. -/
def c6Article : Article :=
  ⟨600, "https://www.youtube.com/watch?v=dQw4w9WgXcQ", none, none, none,
   some ArticleType.embedded, ⟨none, false⟩⟩

/-- Witness for C6: the match clause evaluated on a concrete watch link,
extracting the video id. -/
theorem c6_witness :
    EmbeddedContentGenerator.generate c6Article =
      Except.ok (true, [("type", "embedded"),
                        ("player", "youtube"),
                        ("videoId", "dQw4w9WgXcQ")]) :=
  (c6_embedded_generate c6Article rfl).1
    ⟨some "https://", some "www.", "youtube.com", "/watch?v=", "dQw4w9WgXcQ", none⟩
    rfl

/-- C7: a reddit article classified as a pure post short-circuits both
methods, generate to failure with an empty dictionary and get_vector to
nothing; an article not so classified is handled exactly by the inherited
truncated-content generate and the inherited base get_vector. -/
theorem c7_reddit_delegation (head : String → Option String) (a : Article)
    (fetch : Option Page) :
    (is_pure_reddit_post head a = true →
       RedditContentGenerator.generate head a fetch = (false, []) ∧
       RedditContentGenerator.get_vector head a fetch = none) ∧
    (is_pure_reddit_post head a = false →
       RedditContentGenerator.generate head a fetch =
         TruncatedContentGenerator.generate a fetch ∧
       RedditContentGenerator.get_vector head a fetch =
         ContentGenerator.get_vector fetch) := by
  constructor <;> intro h <;>
    exact ⟨by simp [RedditContentGenerator.generate, h],
           by simp [RedditContentGenerator.get_vector, h]⟩

/-- Reddit-feed article whose link equals its comments uri and that has
no article type: a pure reddit post. -/
def c7Article : Article :=
  ⟨700, "https://www.reddit.com/r/x/comments/2/", none, none,
   some "https://www.reddit.com/r/x/comments/2/", none,
   ⟨some FeedType.reddit, true⟩⟩

/-- Witness for C7: the short-circuit clause evaluated on a concrete pure
reddit post. -/
theorem c7_witness :
    RedditContentGenerator.generate (fun _ => none) c7Article none = (false, []) :=
  ((c7_reddit_delegation (fun _ => none) c7Article none).1 rfl).1

/-- C2 amended: along the dispatched strategy of any article, get_vector
never raises, and generate never raises except for the image strategy on
an article with neither truthy title nor body, where the slice of None
raises TypeError. -/
theorem c2_no_escaping_exceptions (head : String → Option String) (a : Article)
    (fetch : Option Page) :
    (getVectorFor head (get_content_generator a) a fetch).isOk = true ∧
    ((generateFor head (get_content_generator a) a fetch).isOk = true ∨
     (get_content_generator a = Strategy.image ∧
      pyOrStr a.title a.content = none ∧
      generateFor head (get_content_generator a) a fetch =
        Except.error PyExc.typeError)) := by
  constructor
  · cases hgcg : get_content_generator a <;> rfl
  · cases hgcg : get_content_generator a with
    | base => left; rfl
    | truncated => left; rfl
    | reddit => left; rfl
    | embedded =>
      left
      have hat := article_type_of_gcg_embedded a hgcg
      cases hy : ytMatch a.link <;>
        simp [generateFor, EmbeddedContentGenerator.generate, hy, hat,
              Except.isOk, Except.toBool]
    | image =>
      have hat := article_type_of_gcg_image a hgcg
      cases ht : pyOrStr a.title a.content with
      | some s =>
        left
        simp [generateFor, ImageContentGenerator.generate, hat, ht,
              Except.isOk, Except.toBool]
      | none =>
        right
        refine ⟨rfl, rfl, ?_⟩
        simp [generateFor, ImageContentGenerator.generate, hat, ht]

/-- Image article with neither title nor body, routed by the registry. -/
def c2Article : Article :=
  ⟨200, "https://example.com/p.png", none, none, none,
   some ArticleType.image, ⟨none, false⟩⟩

/-- Counterexample for C2: a TypeError escapes generate on a dispatched
image article with neither title nor body. -/
theorem c2_counterexample :
    get_content_generator c2Article = Strategy.image ∧
    generateFor (fun _ => none) (get_content_generator c2Article) c2Article none =
      Except.error PyExc.typeError :=
  ⟨rfl, rfl⟩

/-- A lookup hit names an element of the list, so removing every entry
with the hit key shortens the list by at least one. -/
lemma length_filter_ne_of_lookup {es : List (Nat × Nat)} {k v : Nat}
    (h : es.lookup k = some v) :
    (es.filter (fun e => e.1 ≠ k)).length + 1 ≤ es.length := by
  induction es with
  | nil => simp [List.lookup] at h
  | cons e tl ih =>
    by_cases hk : k = e.1
    · have hpred : (decide (e.1 ≠ k)) = false := by simp [hk]
      simp only [List.filter, hpred, List.length_cons]
      exact Nat.succ_le_succ (List.length_filter_le _ tl)
    · have hpred : (decide (e.1 ≠ k)) = true := by simp [Ne.symm hk]
      have hlk : tl.lookup k = some v := by
        obtain ⟨ek, ev⟩ := e
        simp only [List.lookup] at h
        have : (k == ek) = false := by
          simp only [beq_eq_false_iff_ne, ne_eq]
          exact fun hc => hk (by simp [hc])
        rw [this] at h
        exact h
      simp only [List.filter, hpred, List.length_cons]
      exact Nat.succ_le_succ (ih hlk)

/-- C8 amended: the memoized registry lookup keyed by article identity
returns on an immediate repeat of the same article the identical stored
instance, and the cache never grows beyond the default lru_cache capacity
of 128 entries. -/
theorem c8_memoized_lookup (st : LruState) (a : Article) :
    (get_content_generator_memo
        ((get_content_generator_memo st a).2) a).1.2 =
      (get_content_generator_memo st a).1.2 ∧
    (get_content_generator_memo st a).2.entries.length ≤
      max st.entries.length lruMaxsize := by
  constructor
  · unfold get_content_generator_memo cachedLookup
    cases hl : st.entries.lookup a.objId with
    | some v => simp [hl]
    | none =>
      simp only [hl]
      have : ((a.objId, st.nextId) :: st.entries).take lruMaxsize =
          (a.objId, st.nextId) :: st.entries.take 127 := by
        rfl
      simp [this, List.lookup]
  · unfold get_content_generator_memo cachedLookup
    cases hl : st.entries.lookup a.objId with
    | some v =>
      simp only [hl, List.length_cons]
      exact le_max_of_le_left (length_filter_ne_of_lookup hl)
    | none =>
      simp only [hl]
      refine le_max_of_le_right ?_
      calc (((a.objId, st.nextId) :: st.entries).take lruMaxsize).length
          ≤ lruMaxsize := by
            rw [List.length_take]
            exact min_le_left _ _

/-- Article with a given identity and no dispatchable type, used to fill
the cache. -/
def mkArt (n : Nat) : Article :=
  ⟨n, "https://example.com/a", none, none, none, none, ⟨none, false⟩⟩

/-- Cache state after memoized lookups for 129 articles of distinct
identities, starting from the empty cache. -/
def c8Run : LruState :=
  runMemo ((List.range 129).map mkArt) LruState.empty

set_option maxRecDepth 100000 in
/-- Counterexample for C8: the first lookup of article 0 stores instance
0, but after lookups for 128 further distinct articles the entry has been
evicted, and looking the same article up again constructs the fresh
instance 129 rather than returning instance 0: the cache does evict. -/
theorem c8_counterexample :
    (get_content_generator_memo LruState.empty (mkArt 0)).1.2 = 0 ∧
    (get_content_generator_memo c8Run (mkArt 0)).1.2 = 129 ∧
    (129 : Nat) ≠ 0 := by
  refine ⟨rfl, by decide, by decide⟩

/-- C9 amended: every call of generate or get_vector on a reddit strategy
instance evaluates the pure-post classification property exactly once
more, while returning exactly what the un-instrumented methods return;
the classification is recomputed per call, not memoized. -/
theorem c9_classification_recomputed (head : String → Option String)
    (a : Article) (fetch : Option Page) (evals : Nat) :
    (RedditContentGenerator.generateCounted head a fetch evals).2 = evals + 1 ∧
    (RedditContentGenerator.getVectorCounted head a fetch evals).2 = evals + 1 ∧
    (RedditContentGenerator.generateCounted head a fetch evals).1 =
      RedditContentGenerator.generate head a fetch ∧
    (RedditContentGenerator.getVectorCounted head a fetch evals).1 =
      RedditContentGenerator.get_vector head a fetch := by
  refine ⟨rfl, rfl, rfl, rfl⟩

/-- Reddit-feed article that is not a pure post, so each call runs the
classification and then the truncated behavior. -/
def c9Article : Article :=
  ⟨900, "https://example.com/a", none, none,
   some "https://www.reddit.com/r/x/comments/3/", none,
   ⟨some FeedType.reddit, true⟩⟩

/-- Counterexample for C9: two successive generate calls on the same
reddit strategy instance evaluate the classification twice; a memoized
classification would leave the count at one. -/
theorem c9_counterexample :
    (RedditContentGenerator.generateCounted (fun _ => none) c9Article none
       (RedditContentGenerator.generateCounted (fun _ => none) c9Article none 0).2).2 = 2 ∧
    (2 : Nat) ≠ 1 :=
  ⟨rfl, by decide⟩

end Jarr
